import Mathlib

/-!
Shallow embedding of the RainMachine WeeWX uploader
(`bin/user/rainmachine.py`) and proofs about its record transformer,
derived-statistics fetcher, URL formatting and service construction.

Modelling conventions:
* Python numeric values are embedded as exact rationals (`ℚ`).
* An archive record maps a field name to `Option (Option ℚ)`:
  the outer `Option` is key presence (`rkey in record`), the inner one is
  null-ness (`record[rkey] is not None`).
* `json.dumps` on the fixed envelope shape produced by `get_post_body`
  is embedded as a concrete serializer with Python's default separators
  and insertion-preserving key order.
-/

namespace RainMachineSpec

/-- An archive record: field name to presence/value.  `none` means the key
is absent, `some none` means the key is present with value null, and
`some (some v)` means the key is present with numeric value `v`. -/
def Record := String → Option (Option ℚ)

/-- Python's `rkey in record and record[rkey] is not None` guard, packaged:
`some v` exactly when the key is present and non-null. -/
def getValue (r : Record) (k : String) : Option ℚ :=
  match r k with
  | some (some v) => some v
  | _ => none

/-- The static field mapping table `RainMachineThread._DATA_MAP`, in Python
dict insertion order: destination key, source key, scale, offset. -/
def _DATA_MAP : List (String × String × ℚ × ℚ) :=
  [ ("timestamp", "dateTime", 1, 0),
    ("wind", "windSpeed", 0.2777777777, 0.0),
    ("temperature", "outTemp", 1.0, 0.0),
    ("maxrh", "outHumidity", 1.0, 0.0),
    ("dewpoint", "dewpoint", 1.0, 0.0),
    ("pressure", "barometer", 0.1, 0.0),
    ("rain", "dayRain", 10.0, 0.0),
    ("mintemp", "outTempMin", 1.0, 0.0),
    ("maxtemp", "outTempMax", 1.0, 0.0),
    ("et", "ET", 10.0, 0) ]

/-- The source field names of `_DATA_MAP` (the record keys the transformer
reads). -/
def sourceKeys : List String :=
  _DATA_MAP.map (fun e => e.2.1)

/-- The loop body of `get_post_body`: for each destination key of
`_DATA_MAP` whose source key is present and non-null in the record, emit
`record[rkey] * scale + offset`; otherwise emit nothing. -/
def entryPairs (r : Record) : List (String × ℚ) :=
  _DATA_MAP.filterMap
    (fun e => (getValue r e.2.1).map (fun v => (e.1, v * e.2.2.1 + e.2.2.2)))

/-- Rendering of a rational number in the serialized payload (stands in for
Python's float `repr`; integral values print like Python floats). -/
def renderQ (q : ℚ) : String :=
  if q.den = 1 then toString q.num ++ ".0"
  else toString q.num ++ "e-" ++ toString q.den

/-- `json.dumps` on one flat object of numeric fields, with Python's default
separators and insertion order. -/
def dumpsEntry (ps : List (String × ℚ)) : String :=
  "\x7b" ++ String.intercalate ", "
      (ps.map (fun p => "\"" ++ p.1 ++ "\": " ++ renderQ p.2)) ++ "\x7d"

/-- `json.dumps` on the envelope built by `get_post_body`: an object with
the single key "weather" holding a list of flat entries. -/
def dumpsTop (weather : List (List (String × ℚ))) : String :=
  "\x7b\"weather\": [" ++ String.intercalate ", " (weather.map dumpsEntry) ++ "]\x7d"

/-- `RainMachineThread.get_post_body`: build the single entry, wrap it as
the one element of the "weather" list, serialize, and pair the body with
the content type. -/
def get_post_body (r : Record) : String × String :=
  (dumpsTop [entryPairs r], "application/json")

/-- The immutable connection configuration of `RainMachineThread` that
`format_url` reads. -/
structure ThreadCfg where
  token : String
  ip : String
  usessl : Bool

/-- `RainMachineThread.format_url`: the record argument is ignored; protocol
and port are fixed by `usessl`. -/
def format_url (cfg : ThreadCfg) (_record : Record) : String :=
  let proto := if cfg.usessl then "https" else "http"
  let port := if cfg.usessl then "8080" else "8081"
  proto ++ "://" ++ cfg.ip ++ ":" ++ port ++ "/api/4/parser/data?access_token=" ++ cfg.token

/-- `weeutil.weeutil.startOfDayUTC` (external library helper used by the
fetcher): the midnight-UTC boundary at or before the timestamp. -/
def startOfDayUTC (ts : ℕ) : ℕ :=
  ts / 86400 * 86400

/-- The observation store's table: rows of (dateTime, outTemp), where
outTemp may be SQL NULL. -/
def Dbm := List (ℕ × Option ℚ)

/-- Semantics of the aggregate query
`SELECT MIN(outTemp), MAX(outTemp) ... WHERE dateTime>? AND dateTime<=?`:
an aggregate SELECT returns one row; MIN/MAX ignore NULLs and are NULL
when no non-null value falls in the window. -/
def getSqlDayMinMax (rows : Dbm) (lo hi : ℕ) : Option (Option ℚ × Option ℚ) :=
  let sel := (rows.filter (fun p => decide (lo < p.1 ∧ p.1 ≤ hi))).filterMap Prod.snd
  some (sel.min?, sel.max?)

/-- `_get_day_min_max_temp` with the store handle abstracted to its query
function (`dbm.getSql` may in general yield no row): `None` handle gives
`(None, None)`; otherwise one query over `(startOfDayUTC ts, ts]` whose
missing row also gives `(None, None)`. -/
def getDayMinMaxWithQuery
    (dbm : Option (ℕ → ℕ → Option (Option ℚ × Option ℚ))) (ts : ℕ) :
    Option ℚ × Option ℚ :=
  match dbm with
  | none => (none, none)
  | some getSql =>
    match getSql (startOfDayUTC ts) ts with
    | none => (none, none)
    | some val => val

/-- `_get_day_min_max_temp` on a concrete table. -/
def _get_day_min_max_temp (dbm : Option Dbm) (ts : ℕ) : Option ℚ × Option ℚ :=
  getDayMinMaxWithQuery (dbm.map (fun rows => getSqlDayMinMax rows)) ts

/-- The (lo, hi) bound pairs passed to `dbm.getSql` by
`_get_day_min_max_temp`, read off the source: no call when the handle is
`None`, exactly one call with `(startOfDayUTC ts, ts)` otherwise. -/
def issuedQueries (dbm : Option Dbm) (ts : ℕ) : List (ℕ × ℕ) :=
  match dbm with
  | none => []
  | some _ => [(startOfDayUTC ts, ts)]

/-- The unit systems of the host (`weewx.US`, `weewx.METRIC`,
`weewx.METRICWX`). -/
inductive UnitSystem where
  | us
  | metric
  | metricwx
deriving DecidableEq

/-- `weewx.units.getStandardUnitType(unit_system, 'outTemp')` (external
library): the standard temperature unit of each system. -/
def stdOutTempUnit : UnitSystem → String
  | .us => "degree_F"
  | .metric => "degree_C"
  | .metricwx => "degree_C"

/-- `weewx.units.convert(..., 'degree_C')` (external library) on the
temperature group: Fahrenheit converts, Celsius is the identity. -/
def convertToDegreeC (v : ℚ) (fromType : String) : ℚ :=
  if fromType = "degree_F" then (v - 32) * 5 / 9 else v

/-- `_convert_temperature`: `None` unit or `None` value give `None`;
a non-metric unit system converts from its standard temperature type to
Celsius; the metric system returns the value unchanged. -/
def _convert_temperature (v : Option ℚ) (from_unit : Option UnitSystem) : Option ℚ :=
  match from_unit, v with
  | none, _ => none
  | _, none => none
  | some u, some x =>
    if u ≠ UnitSystem.metric then some (convertToDegreeC x (stdOutTempUnit u))
    else some x

/-- The min/max enrichment step of `RainMachineThread.get_record`: fetch
the day min/max at the record's dateTime and convert both with the
originating record's `usUnits` tag. -/
def get_record_minmax (dbm : Option Dbm) (rec_dateTime : ℕ)
    (record_usUnits : Option UnitSystem) : Option ℚ × Option ℚ :=
  let mm := _get_day_min_max_temp dbm rec_dateTime
  (_convert_temperature mm.1 record_usUnits, _convert_temperature mm.2 record_usUnits)

/-- The result of `weewx.restx.get_site_dict` (external): `none` when a
required key (token or ip) is missing from the configuration. -/
structure SiteConf where
  token : String
  ip : String

/-- Observable effects of `RainMachine.__init__` on the service: whether
the pending queue was created, the worker thread started, and the
new-archive-record event subscribed. -/
structure ServiceState where
  queue_created : Bool
  worker_started : Bool
  bound_new_archive : Bool
deriving DecidableEq

/-- `RainMachine.__init__`: when `get_site_dict` yields nothing the
constructor returns at once; otherwise it creates the queue, starts the
worker thread and binds the event. -/
def RainMachine_init (site_dict : Option SiteConf) : ServiceState :=
  match site_dict with
  | none =>
    { queue_created := false, worker_started := false, bound_new_archive := false }
  | some _ =>
    { queue_created := true, worker_started := true, bound_new_archive := true }

end RainMachineSpec

namespace RainMachineSpec

/-- Membership characterization for `entryPairs`: a destination pair is in
the entry exactly when its table row has a present, non-null source. -/
theorem mem_entryPairs (r : Record) (dk : String) (v : ℚ) :
    (dk, v) ∈ entryPairs r ↔
      ∃ sk sc off, (dk, sk, sc, off) ∈ _DATA_MAP ∧
        ∃ w, getValue r sk = some w ∧ v = w * sc + off := by
  constructor
  · intro h
    obtain ⟨e, he, hfe⟩ := List.mem_filterMap.mp h
    obtain ⟨w, hw, hpair⟩ := Option.map_eq_some'.mp hfe
    obtain ⟨hdk, hv⟩ := Prod.mk.injEq .. ▸ hpair
    exact ⟨e.2.1, e.2.2.1, e.2.2.2, by simpa [← hdk] using he, w, hw, hv.symm⟩
  · rintro ⟨sk, sc, off, hmem, w, hw, hv⟩
    exact List.mem_filterMap.mpr ⟨(dk, sk, sc, off), hmem, by simp [hw, hv]⟩

/-- Destination keys of the table are pairwise distinct. -/
theorem dataMap_keys_nodup : (_DATA_MAP.map Prod.fst).Nodup := by decide

/-- C1: for every record and every table row whose source field is absent
or null, the destination field does not occur in the entry serialized by
`get_post_body` (in particular it is never emitted as zero or null). -/
theorem get_post_body_omits_missing_fields
    (r : Record) (dk sk : String) (sc off : ℚ)
    (hmem : (dk, sk, sc, off) ∈ _DATA_MAP)
    (habs : getValue r sk = none) :
    ∀ v : ℚ, (dk, v) ∉ entryPairs r := by
  intro v hv
  obtain ⟨sk', sc', off', hmem', w, hw, _⟩ := (mem_entryPairs r dk v).mp hv
  have heq : (dk, sk', sc', off') = (dk, sk, sc, off) :=
    List.inj_on_of_nodup_map dataMap_keys_nodup hmem' hmem rfl
  rw [show sk' = sk from (by simpa using heq : sk' = sk ∧ sc' = sc ∧ off' = off).1] at hw
  rw [habs] at hw
  exact Option.noConfusion hw

/-- C1 witness: on the empty record the "rain" field is absent from the
entry. -/
theorem get_post_body_omits_missing_fields_witness :
    ("rain", (0 : ℚ)) ∉ entryPairs (fun _ => none) :=
  get_post_body_omits_missing_fields (fun _ => none) "rain" "dayRain" 10.0 0.0
    (by simp [_DATA_MAP]) rfl 0

/-- C2: for every record and every table row whose source field is present
and non-null with value `w`, the entry built by `get_post_body` contains
the destination field with value `w * scale + offset`. -/
theorem get_post_body_linear_transform
    (r : Record) (dk sk : String) (sc off : ℚ) (w : ℚ)
    (hmem : (dk, sk, sc, off) ∈ _DATA_MAP)
    (hval : getValue r sk = some w) :
    (dk, w * sc + off) ∈ entryPairs r :=
  (mem_entryPairs r dk (w * sc + off)).mpr ⟨sk, sc, off, hmem, w, hval, rfl⟩

/-- C2 witness: a record with outTemp 20 yields temperature 20 * 1 + 0. -/
theorem get_post_body_linear_transform_witness :
    ("temperature", (20 : ℚ) * 1.0 + 0.0) ∈
      entryPairs (fun k => if k = "outTemp" then some (some 20) else none) :=
  get_post_body_linear_transform _ "temperature" "outTemp" 1.0 0.0 20
    (by simp [_DATA_MAP]) (by simp [getValue])

end RainMachineSpec

namespace RainMachineSpec

/-- C3: on an available store, `_get_day_min_max_temp` issues exactly one
aggregate query, bounded by `(startOfDayUTC ts, ts]`; `startOfDayUTC ts` is
the midnight-UTC boundary at or before `ts`; the aggregated rows are
exactly those with `startOfDayUTC ts < dateTime ≤ ts`; and repeating the
query on an unchanged store yields the identical pair. -/
theorem day_min_max_window (rows : Dbm) (ts : ℕ) :
    issuedQueries (some rows) ts = [(startOfDayUTC ts, ts)]
    ∧ startOfDayUTC ts % 86400 = 0
    ∧ startOfDayUTC ts ≤ ts
    ∧ ts < startOfDayUTC ts + 86400
    ∧ _get_day_min_max_temp (some rows) ts =
        (((rows.filter (fun p => decide (startOfDayUTC ts < p.1 ∧ p.1 ≤ ts))).filterMap Prod.snd).min?,
         ((rows.filter (fun p => decide (startOfDayUTC ts < p.1 ∧ p.1 ≤ ts))).filterMap Prod.snd).max?)
    ∧ _get_day_min_max_temp (some rows) ts = _get_day_min_max_temp (some rows) ts := by
  refine ⟨rfl, ?_, ?_, ?_, rfl, rfl⟩
  · simp [startOfDayUTC, Nat.mul_mod_left]
  · exact Nat.div_mul_le_self ts 86400
  · simp only [startOfDayUTC]
    omega

/-- C4: an unavailable store handle, or an aggregate query yielding no
row, makes `_get_day_min_max_temp` return `(None, None)` (the embedding is
a total function: no exception is raised). -/
theorem day_min_max_none_on_missing
    (ts : ℕ) (dbm : Option (ℕ → ℕ → Option (Option ℚ × Option ℚ)))
    (h : dbm = none ∨ ∃ g, dbm = some g ∧ g (startOfDayUTC ts) ts = none) :
    getDayMinMaxWithQuery dbm ts = (none, none) := by
  rcases h with h | ⟨g, hg, hrow⟩
  · simp [getDayMinMaxWithQuery, h]
  · simp [getDayMinMaxWithQuery, hg, hrow]

/-- C4 witness: the `None` handle at timestamp 0. -/
theorem day_min_max_none_on_missing_witness :
    getDayMinMaxWithQuery none 0 = (none, none) :=
  day_min_max_none_on_missing 0 none (Or.inl rfl)

end RainMachineSpec

namespace RainMachineSpec

/-- C5: `format_url` yields the fixed API path with the access token as
query string; `usessl` selects https with port 8080, otherwise http with
port 8081, for every record argument. -/
theorem format_url_shape (cfg : ThreadCfg) (r : Record) :
    (cfg.usessl = true →
      format_url cfg r =
        "https://" ++ cfg.ip ++ ":8080/api/4/parser/data?access_token=" ++ cfg.token)
    ∧ (cfg.usessl = false →
      format_url cfg r =
        "http://" ++ cfg.ip ++ ":8081/api/4/parser/data?access_token=" ++ cfg.token) := by
  constructor <;> intro h <;> simp [format_url, h, String.append_assoc]

/-- C5 witness: a concrete encrypted configuration. -/
theorem format_url_shape_witness :
    format_url ⟨"TOKEN", "192.168.1.2", true⟩ (fun _ => none) =
      "https://" ++ "192.168.1.2" ++ ":8080/api/4/parser/data?access_token=" ++ "TOKEN" :=
  (format_url_shape ⟨"TOKEN", "192.168.1.2", true⟩ (fun _ => none)).1 rfl

/-- C7: the enrichment converts the fetched day min/max with the
originating record's `usUnits` tag: metric leaves values unchanged, the US
system converts from Fahrenheit (its standard temperature type), METRICWX
converts from its standard type degree_C (numerically unchanged), and
`get_record_minmax` applies exactly this conversion componentwise. -/
theorem get_record_minmax_unit_normalization
    (dbm : Option Dbm) (ts : ℕ) (x : ℚ) (u : UnitSystem) :
    _convert_temperature (some x) (some UnitSystem.metric) = some x
    ∧ _convert_temperature (some x) (some UnitSystem.us) = some ((x - 32) * 5 / 9)
    ∧ stdOutTempUnit UnitSystem.metricwx = "degree_C"
    ∧ _convert_temperature (some x) (some UnitSystem.metricwx) = some x
    ∧ get_record_minmax dbm ts (some u) =
        ((_get_day_min_max_temp dbm ts).1.bind
            (fun y => _convert_temperature (some y) (some u)),
         (_get_day_min_max_temp dbm ts).2.bind
            (fun y => _convert_temperature (some y) (some u))) := by
  refine ⟨rfl, rfl, rfl, rfl, ?_⟩
  unfold get_record_minmax
  rcases (_get_day_min_max_temp dbm ts) with ⟨mn, mx⟩
  cases mn <;> cases mx <;> rfl

end RainMachineSpec

namespace RainMachineSpec

/-- C6: the body is the serialization of an object with the single
top-level key "weather" holding a list of exactly one entry, the content
type is "application/json", and when every mapped source field is absent
or null the one entry has no keys and is still serialized. -/
theorem get_post_body_envelope (r : Record) :
    (get_post_body r).2 = "application/json"
    ∧ (get_post_body r).1 = dumpsTop [entryPairs r]
    ∧ [entryPairs r].length = 1
    ∧ ((∀ sk ∈ sourceKeys, getValue r sk = none) →
        entryPairs r = [] ∧
          (get_post_body r).1 = "\x7b\"weather\": [\x7b\x7d]\x7d") := by
  refine ⟨rfl, rfl, rfl, fun h => ?_⟩
  have h1 := h "dateTime" (by decide)
  have h2 := h "windSpeed" (by decide)
  have h3 := h "outTemp" (by decide)
  have h4 := h "outHumidity" (by decide)
  have h5 := h "dewpoint" (by decide)
  have h6 := h "barometer" (by decide)
  have h7 := h "dayRain" (by decide)
  have h8 := h "outTempMin" (by decide)
  have h9 := h "outTempMax" (by decide)
  have h10 := h "ET" (by decide)
  have he : entryPairs r = [] := by
    simp [entryPairs, _DATA_MAP, h1, h2, h3, h4, h5, h6, h7, h8, h9, h10]
  refine ⟨he, ?_⟩
  show dumpsTop [entryPairs r] = _
  rw [he]
  rfl

/-- C6 witness: the empty record yields the empty entry and the bare
envelope. -/
theorem get_post_body_envelope_witness :
    entryPairs (fun _ => none) = [] ∧
      (get_post_body (fun _ => none)).1 = "\x7b\"weather\": [\x7b\x7d]\x7d" :=
  (get_post_body_envelope (fun _ => none)).2.2.2 (fun _ _ => rfl)

/-- C8: `get_post_body` is a pure function of its record argument and the
static table: the same record gives the identical output, and two records
agreeing on every mapped source field give identical serialized output. -/
theorem get_post_body_deterministic (r r1 r2 : Record) :
    get_post_body r = get_post_body r
    ∧ ((∀ sk ∈ sourceKeys, r1 sk = r2 sk) → get_post_body r1 = get_post_body r2) := by
  refine ⟨rfl, fun h => ?_⟩
  have hgv : ∀ sk ∈ sourceKeys, getValue r1 sk = getValue r2 sk := by
    intro sk hs
    unfold getValue
    rw [h sk hs]
  have he : entryPairs r1 = entryPairs r2 := by
    unfold entryPairs
    exact List.filterMap_congr
      (fun e he => by rw [hgv e.2.1 (List.mem_map_of_mem (fun x => x.2.1) he)])
  unfold get_post_body
  rw [he]

/-- C8 witness: two extensionally distinct record closures agreeing on the
mapped fields give identical output. -/
theorem get_post_body_deterministic_witness :
    get_post_body (fun _ => none) =
      get_post_body (fun k => if k = "condition" then some (some 26) else none) :=
  (get_post_body_deterministic (fun _ => none) (fun _ => none)
      (fun k => if k = "condition" then some (some 26) else none)).2
    (by decide)

/-- C9: when the site-configuration lookup yields nothing, the constructor
returns without creating the queue, starting the worker or binding the
event (the embedding is total: no exception); with a configuration it does
all three. -/
theorem init_disabled_on_missing_config :
    RainMachine_init none =
      { queue_created := false, worker_started := false, bound_new_archive := false }
    ∧ ∀ sd : SiteConf, RainMachine_init (some sd) =
        { queue_created := true, worker_started := true, bound_new_archive := true } :=
  ⟨rfl, fun _ => rfl⟩

/-- C10: the record argument does not flow into the delivery URL: any two
records give the same `format_url` result under a fixed configuration. -/
theorem format_url_ignores_record (cfg : ThreadCfg) (r1 r2 : Record) :
    format_url cfg r1 = format_url cfg r2 := rfl

end RainMachineSpec
